import Mathlib

/-!
Shallow embedding of the Dog Search & Listing Service (`dog.service.ts`)
of the lost/found-pet registry backend, together with theorems checking
the natural-language specification against it.

The storage collaborator (Prisma) is modelled as an explicit list of
records: `findMany(where, orderBy createdAt desc)` becomes "sort the
stored list newest-first, then filter with the compiled predicate";
`findFirst` becomes `List.find?`; `update`/`delete` rewrite the list.
JavaScript truthiness tests (`if (query)`, `input.status || ...`,
`radiusKm &&`) are embedded as explicit truthiness functions on
`Option String` / `Option ℝ`.  Numbers are real numbers; the
trigonometric distance computation uses `Real.sin`/`Real.cos` and a
real-valued model of `Math.atan2`.
-/

namespace DogSpotter

open Real

/-- JavaScript truthiness of an optional string value: `undefined` and
the empty string are falsy, every other string is truthy. -/
def strTruthy : Option String → Bool
  | none => false
  | some s => s ≠ ""

/-- JavaScript truthiness of an optional number (`radiusKm &&`):
`undefined` and `0` are falsy. -/
noncomputable def numTruthy : Option ℝ → Bool
  | none => false
  | some r => decide (r ≠ 0)

/-- A persisted sighting record (the `dogs` table row): `imageUrl`,
`breed`, `color`, `size` are nullable columns, `status` is NOT NULL,
`createdAt` is the creation timestamp used for newest-first ordering. -/
structure Dog where
  id : String
  description : String
  imageUrl : Option String
  latitude : ℝ
  longitude : ℝ
  breed : Option String
  color : Option String
  size : Option String
  status : String
  userId : String
  createdAt : ℕ

/-- Degree-to-radian conversion `toRad` from the service:
`deg * (Math.PI / 180)`. -/
noncomputable def toRad (deg : ℝ) : ℝ := deg * (π / 180)

/-- Real-number semantics of `Math.atan2(y, x)`. -/
noncomputable def atan2 (y x : ℝ) : ℝ :=
  if 0 < x then arctan (y / x)
  else if x < 0 then
    (if 0 ≤ y then arctan (y / x) + π else arctan (y / x) - π)
  else
    (if 0 < y then π / 2 else if y < 0 then -(π / 2) else 0)

/-- Distance function `calculateDistance` from the service: the Haversine great-circle
distance with Earth radius `R = 6371` km. -/
noncomputable def calculateDistance (lat1 lon1 lat2 lon2 : ℝ) : ℝ :=
  let R : ℝ := 6371
  let dLat := toRad (lat2 - lat1)
  let dLon := toRad (lon2 - lon1)
  let a := sin (dLat / 2) * sin (dLat / 2) +
    cos (toRad lat1) * cos (toRad lat2) * sin (dLon / 2) * sin (dLon / 2)
  let c := 2 * atan2 (Real.sqrt a) (Real.sqrt (1 - a))
  R * c

/-- Lowercased character sequence of a string, the normal form used to
model the Prisma case-insensitive matching. -/
def lowerChars (s : String) : List Char := s.data.map Char.toLower

/-- Prisma contains-insensitive matching on a non-null column:
case-insensitive substring containment. -/
def containsInsensitive (hay q : String) : Bool :=
  decide (lowerChars q <:+: lowerChars hay)

/-- Prisma contains-insensitive matching on a nullable column:
a NULL column value never matches. -/
def optContainsInsensitive (field : Option String) (q : String) : Bool :=
  match field with
  | none => false
  | some s => containsInsensitive s q

/-- The `SearchFilters` input of `DogService.search`. -/
structure SearchFilters where
  query : Option String
  status : Option String
  size : Option String
  breed : Option String
  latitude : Option ℝ
  longitude : Option ℝ
  radiusKm : Option ℝ

/-- The `where` object compiled by `DogService.search`, as a predicate
on records.  Each clause is guarded by JavaScript truthiness of the
corresponding filter field, and all compiled clauses are conjoined
(Prisma top-level `where` keys are ANDed; the `query` clause is an OR
across description, breed and color). -/
def searchWhere (f : SearchFilters) (d : Dog) : Bool :=
  (match f.query with
   | none => true
   | some q =>
     if q = "" then true
     else containsInsensitive d.description q ||
       optContainsInsensitive d.breed q ||
       optContainsInsensitive d.color q) &&
  (match f.status with
   | none => true
   | some s => if s = "" then true else d.status == s) &&
  (match f.size with
   | none => true
   | some z => if z = "" then true else d.size == some z) &&
  (match f.breed with
   | none => true
   | some b => if b = "" then true else optContainsInsensitive d.breed b)

/-- Comparison used by the descending-createdAt ordering. -/
def newestFirst (a b : Dog) : Bool := decide (b.createdAt ≤ a.createdAt)

/-- Newest-first ordering, as the storage collaborator returns it, of the stored
records. -/
def sortByNewest (l : List Dog) : List Dog := l.mergeSort newestFirst

/-- Model of the Prisma findMany call with a where predicate and
descending-createdAt ordering, over the stored record list. -/
def dbFindMany (w : Dog → Bool) (stored : List Dog) : List Dog :=
  (sortByNewest stored).filter w

/-- The `CreateDogInput` shape accepted by `DogService.create`. -/
structure CreateDogInput where
  description : String
  imageUrl : Option String
  latitude : ℝ
  longitude : ℝ
  breed : Option String
  color : Option String
  size : Option String
  status : Option String
  userId : String

/-- The `UpdateDogInput` patch shape accepted by `DogService.update`;
it carries no `userId` field. -/
structure UpdateDogInput where
  description : Option String
  imageUrl : Option String
  latitude : Option ℝ
  longitude : Option ℝ
  breed : Option String
  color : Option String
  size : Option String
  status : Option String

/-- Result shape of the predictBreed operation of the ML collaborator. -/
structure Prediction where
  breed : Option String
  confidence : Option ℝ

/-- Outcome of calling the ML collaborator: a prediction, or a thrown
error. -/
def MLOutcome := Except Unit Prediction

/-- Error conditions surfaced by the service layer.
`notFoundOrForbidden` is the thrown
"Cachorro não encontrado ou você não tem permissão";
`storageFailure` stands for an error propagated from the storage
collaborator. -/
inductive DogError where
  | notFoundOrForbidden
  | storageFailure
deriving DecidableEq

/-- Errors and successes of paginated `findAll`. -/
structure Pagination where
  page : ℕ
  limit : ℕ
  total : ℕ
  totalPages : ℕ

/-- Result of `DogService.findAll`: the page of records plus the
pagination metadata object. -/
structure FindAllResult where
  dogs : List Dog
  pagination : Pagination

/-- The optional map viewport passed to `DogService.getForMap`. -/
structure Bounds where
  north : ℝ
  south : ℝ
  east : ℝ
  west : ℝ

/-- The reduced projection `getForMap` selects for each marker. -/
structure MapMarker where
  id : String
  latitude : ℝ
  longitude : ℝ
  imageUrl : Option String
  description : String
  status : String
  breed : Option String
  createdAt : ℕ

/-- Field selection applied by the select clause of getForMap. -/
def toMarker (d : Dog) : MapMarker :=
  { id := d.id, latitude := d.latitude, longitude := d.longitude,
    imageUrl := d.imageUrl, description := d.description,
    status := d.status, breed := d.breed, createdAt := d.createdAt }

namespace DogService

/-- The row inserted by `prisma.dog.create` inside `DogService.create`:
all input fields copied, with the status falling back to the default
string "encontrado" when the supplied status is not truthy.  `freshId` and `now` stand for the id and creation timestamp
generated by the database. -/
def mkDog (input : CreateDogInput) (freshId : String) (now : ℕ) : Dog :=
  { id := freshId,
    description := input.description,
    imageUrl := input.imageUrl,
    latitude := input.latitude,
    longitude := input.longitude,
    breed := input.breed,
    color := input.color,
    size := input.size,
    status := match input.status with
      | none => "encontrado"
      | some s => if s = "" then "encontrado" else s,
    userId := input.userId,
    createdAt := now }

/-- The guard `if (input.imageUrl && !input.breed)` deciding whether
`DogService.create` attempts the ML breed prediction. -/
def mlAttempted (input : CreateDogInput) : Bool :=
  strTruthy input.imageUrl && !strTruthy input.breed

/-- Operation `DogService.create`: insert the record; when an image is present
and no breed was supplied, call the ML collaborator inside try/catch
and, only on a successful prediction with a truthy breed, update the
breed of the record.  A thrown prediction error is swallowed and the
original record returned. -/
def create (predict : String → String → MLOutcome)
    (input : CreateDogInput) (freshId : String) (now : ℕ) : Dog :=
  let dog := mkDog input freshId now
  if mlAttempted input then
    match predict (input.imageUrl.getD "") dog.id with
    | Except.error _ => dog
    | Except.ok prediction =>
      if strTruthy prediction.breed then
        { dog with breed := prediction.breed }
      else dog
  else dog

/-- Operation `DogService.findAll(page, limit)`: skip `(page - 1) * limit`
records of the newest-first ordering, take at most `limit`, and attach
pagination metadata with `totalPages = Math.ceil(total / limit)`. -/
def findAll (page limit : ℕ) (stored : List Dog) : FindAllResult :=
  let skip := (page - 1) * limit
  let dogs := ((sortByNewest stored).drop skip).take limit
  let total := stored.length
  { dogs := dogs,
    pagination :=
      { page := page, limit := limit, total := total,
        totalPages := Nat.ceil ((total : ℚ) / (limit : ℚ)) } }

/-- Operation `DogService.search`: fetch all records matching the compiled
`where` predicate newest-first, then, if latitude and longitude are
present (`!== undefined`) and `radiusKm` is truthy, keep only records
within `radiusKm` of the centre by Haversine distance (an in-memory
filter after the fetch). -/
noncomputable def search (f : SearchFilters) (stored : List Dog) :
    List Dog :=
  let dogs := dbFindMany (searchWhere f) stored
  if f.latitude.isSome && f.longitude.isSome && numTruthy f.radiusKm then
    dogs.filter (fun d =>
      decide (calculateDistance (f.latitude.getD 0) (f.longitude.getD 0)
        d.latitude d.longitude ≤ f.radiusKm.getD 0))
  else dogs

/-- The `where` object compiled by `getForMap` from the optional
bounds: latitude in `[south, north]` and longitude in `[west, east]`,
both inclusive; no clause when bounds are absent. -/
noncomputable def boundsWhere (bounds : Option Bounds) (d : Dog) : Bool :=
  match bounds with
  | none => true
  | some b =>
    decide (b.south ≤ d.latitude) && decide (d.latitude ≤ b.north) &&
    decide (b.west ≤ d.longitude) && decide (d.longitude ≤ b.east)

/-- Operation `DogService.getForMap`: newest-first, bounds-filtered, capped at
100 records (`take: 100`), projected to the marker shape. -/
noncomputable def getForMap (bounds : Option Bounds)
    (stored : List Dog) : List MapMarker :=
  ((dbFindMany (boundsWhere bounds) stored).take 100).map toMarker

/-- The ownership lookup
`prisma.dog.findFirst({ where: { id, userId } })` shared by `update`
and `delete`. -/
def findFirstOwned (id userId : String) (state : List Dog) :
    Option Dog :=
  state.find? (fun d => d.id == id && d.userId == userId)

/-- Application of a Prisma `update({ data: input })` patch to one row:
each field present in the patch overwrites the column, absent fields
are left unchanged; the row fields `id`, `userId` and `createdAt` are not
part of the patch type and are untouched. -/
def applyUpdate (d : Dog) (input : UpdateDogInput) : Dog :=
  { d with
    description := input.description.getD d.description,
    imageUrl := match input.imageUrl with
      | some v => some v
      | none => d.imageUrl,
    latitude := input.latitude.getD d.latitude,
    longitude := input.longitude.getD d.longitude,
    breed := match input.breed with
      | some v => some v
      | none => d.breed,
    color := match input.color with
      | some v => some v
      | none => d.color,
    size := match input.size with
      | some v => some v
      | none => d.size,
    status := input.status.getD d.status }

/-- Operation `DogService.update(id, userId, input)`: ownership check via
`findFirst({ id, userId })`, throwing `notFoundOrForbidden` (state
untouched) when it misses; otherwise `prisma.dog.update({ where: { id },
data: input })`, which patches the row with that id and returns the
patched record.  The pair is (operation outcome, storage state after
the call). -/
def update (id userId : String) (input : UpdateDogInput)
    (state : List Dog) : Except DogError Dog × List Dog :=
  match findFirstOwned id userId state with
  | none => (Except.error DogError.notFoundOrForbidden, state)
  | some _ =>
    match state.find? (fun d => d.id == id) with
    | none => (Except.error DogError.storageFailure, state)
    | some d =>
      (Except.ok (applyUpdate d input),
        state.map (fun e => if e.id == id then applyUpdate e input else e))

/-- Operation `DogService.delete(id, userId)`: the same ownership check, then
`prisma.dog.delete({ where: { id } })` and `return true`. -/
def delete (id userId : String) (state : List Dog) :
    Except DogError Bool × List Dog :=
  match findFirstOwned id userId state with
  | none => (Except.error DogError.notFoundOrForbidden, state)
  | some _ =>
    (Except.ok true, state.filter (fun d => !(d.id == id)))

end DogService

/-! ## Concrete sample data for witnesses and counterexamples -/

/-- A sample stored record at the given coordinates. -/
def dogAt (lat lon : ℝ) : Dog :=
  { id := "dog-1", description := "found dog", imageUrl := none,
    latitude := lat, longitude := lon, breed := none, color := none,
    size := none, status := "encontrado", userId := "user-1",
    createdAt := 0 }

/-- A sample stored record with a breed and a description. -/
def dogBreedy : Dog :=
  { id := "dog-2", description := "golden fur", imageUrl := none,
    latitude := 0, longitude := 0, breed := some "vira-lata",
    color := none, size := none, status := "perdido",
    userId := "user-1", createdAt := 5 }

/-- A sample create input with an image and no breed. -/
def createInputNoBreed : CreateDogInput :=
  { description := "found dog",
    imageUrl := some "https://img.example/dog.jpg",
    latitude := 0, longitude := 0, breed := none, color := none,
    size := none, status := none, userId := "user-1" }

/-- A sample create input with a breed already supplied. -/
def createInputWithBreed : CreateDogInput :=
  { description := "found dog",
    imageUrl := some "https://img.example/dog.jpg",
    latitude := 0, longitude := 0, breed := some "Known Breed",
    color := none, size := none, status := none, userId := "user-1" }

/-- The all-absent update patch. -/
def emptyPatch : UpdateDogInput :=
  { description := none, imageUrl := none, latitude := none,
    longitude := none, breed := none, color := none, size := none,
    status := none }

/-- An ML collaborator that always throws. -/
def predictThrows : String → String → MLOutcome :=
  fun _ _ => Except.error ()

/-- An ML collaborator that always predicts a breed. -/
def predictLabrador : String → String → MLOutcome :=
  fun _ _ => Except.ok { breed := some "Labrador", confidence := none }

/-! ## Shared helper lemmas -/

/-- At identical coordinates every intermediate of the Haversine
computation collapses: the distance is exactly zero. -/
lemma calculateDistance_self (lat lon : ℝ) :
    calculateDistance lat lon lat lon = 0 := by
  simp [calculateDistance, toRad, atan2, Real.arctan_zero]

/-- The newest-first comparison is total. -/
lemma newestFirst_total (a b : Dog) :
    (newestFirst a b || newestFirst b a) = true := by
  simp [newestFirst]
  exact Nat.le_total b.createdAt a.createdAt

/-- The newest-first comparison is transitive. -/
lemma newestFirst_trans (a b c : Dog) :
    newestFirst a b = true → newestFirst b c = true →
    newestFirst a c = true := by
  simp [newestFirst]
  omega

/-- Sorting newest-first yields a list pairwise ordered by descending
creation time. -/
lemma sortByNewest_pairwise (l : List Dog) :
    (sortByNewest l).Pairwise (fun a b => b.createdAt ≤ a.createdAt) := by
  have h := @List.sorted_mergeSort Dog newestFirst
    newestFirst_trans newestFirst_total l
  exact h.imp (fun hab => by simpa [newestFirst] using hab)

lemma sortByNewest_nil : sortByNewest [] = [] := List.mergeSort_nil

lemma sortByNewest_singleton (d : Dog) : sortByNewest [d] = [d] :=
  List.mergeSort_singleton d

/-- Distance from the origin to the point at latitude 180, longitude 0
evaluates to 6371·π, in particular it is strictly positive. -/
lemma calculateDistance_antipodal :
    calculateDistance 0 0 180 0 = 6371 * π := by
  have h1 : toRad (180 - 0) = π := by
    rw [toRad, sub_zero]
    field_simp
  have h4 : toRad 180 = π := by
    rw [toRad]
    field_simp
  have h2 : toRad (0 - 0) = 0 := by
    rw [toRad, sub_self, zero_mul]
  have h3 : toRad 0 = 0 := by rw [toRad, zero_mul]
  have h5 : atan2 1 0 = π / 2 := by
    rw [atan2, if_neg (lt_irrefl (0 : ℝ)), if_neg (lt_irrefl (0 : ℝ)),
      if_pos (show (0 : ℝ) < 1 by norm_num)]
  simp only [calculateDistance, h1, h2, h3, h4, zero_div, Real.sin_zero,
    Real.cos_zero, Real.cos_pi, Real.sin_pi_div_two, mul_zero, zero_mul,
    mul_one, one_mul, add_zero, sub_self, Real.sqrt_zero, Real.sqrt_one,
    h5]
  ring

/-- Ceiling of a natural division, expressed through rationals the way
`Math.ceil(total / limit)` computes it, equals the usual integer
ceiling division. -/
lemma nat_ceil_cast_div (a b : ℕ) (hb : 1 ≤ b) :
    Nat.ceil ((a : ℚ) / (b : ℚ)) = (a + b - 1) / b := by
  have hb0 : 0 < b := hb
  have hbq : (0 : ℚ) < (b : ℚ) := by exact_mod_cast hb0
  have key : ∀ m : ℕ, Nat.ceil ((a : ℚ) / (b : ℚ)) ≤ m ↔
      (a + b - 1) / b ≤ m := by
    intro m
    rw [Nat.ceil_le, div_le_iff₀ hbq, Nat.div_le_iff_le_mul_add_pred hb0]
    have h3 : b * m = m * b := Nat.mul_comm b m
    constructor
    · intro h
      have h2 : a ≤ m * b := by exact_mod_cast h
      omega
    · intro h
      have h2 : a ≤ m * b := by omega
      exact_mod_cast h2
  exact le_antisymm ((key _).2 le_rfl) ((key _).1 le_rfl)

/-- Every record returned by search satisfies the compiled where
predicate. -/
lemma mem_search_where (f : SearchFilters) (stored : List Dog) (d : Dog)
    (hd : d ∈ DogService.search f stored) : searchWhere f d = true := by
  unfold DogService.search dbFindMany at hd
  by_cases hc : (f.latitude.isSome && f.longitude.isSome &&
      numTruthy f.radiusKm) = true
  · rw [if_pos hc] at hd
    exact (List.mem_filter.mp (List.mem_filter.mp hd).1).2
  · rw [if_neg hc] at hd
    exact (List.mem_filter.mp hd).2

/-! ## Claims -/

/-- C6: for all lat and lon, the Haversine distance function applied to
identical coordinates returns exactly 0:
calculateDistance(lat, lon, lat, lon) = 0. -/
theorem claim_distance_self_zero (lat lon : ℝ) :
    calculateDistance lat lon lat lon = 0 :=
  calculateDistance_self lat lon

/-- C2: for every page ≥ 1, pageSize ≥ 1 and stored record set,
findAll fetches records newest-first, skipping exactly
(page − 1) × pageSize and taking at most pageSize, and returns
pagination metadata with total the record count and
totalPages = ceil(total / pageSize); with zero stored records it
returns an empty sequence and totalPages = 0. -/
theorem claim_findAll_pagination (page limit : ℕ) (stored : List Dog)
    (hp : 1 ≤ page) (hl : 1 ≤ limit) :
    (DogService.findAll page limit stored).dogs =
      ((sortByNewest stored).drop ((page - 1) * limit)).take limit ∧
    (DogService.findAll page limit stored).dogs.length ≤ limit ∧
    List.Pairwise (fun a b => b.createdAt ≤ a.createdAt)
      (DogService.findAll page limit stored).dogs ∧
    (DogService.findAll page limit stored).pagination.total =
      stored.length ∧
    (DogService.findAll page limit stored).pagination.totalPages =
      (stored.length + limit - 1) / limit ∧
    (stored = [] → (DogService.findAll page limit stored).dogs = [] ∧
      (DogService.findAll page limit stored).pagination.totalPages = 0) := by
  refine ⟨rfl, List.length_take_le _ _, ?_, rfl, ?_, ?_⟩
  · exact List.Pairwise.sublist
      ((List.take_sublist _ _).trans (List.drop_sublist _ _))
      (sortByNewest_pairwise stored)
  · exact nat_ceil_cast_div _ _ hl
  · intro h
    subst h
    refine ⟨?_, ?_⟩
    · show (((sortByNewest []).drop _).take _) = []
      rw [sortByNewest_nil]
      simp
    · show Nat.ceil (((List.length ([] : List Dog) : ℚ)) / (limit : ℚ)) = 0
      rw [nat_ceil_cast_div _ _ hl]
      simp only [List.length_nil]
      exact Nat.div_eq_of_lt (by omega)

/-- Witness for C2 at page 2, pageSize 1 and an empty store: the page
is empty and totalPages is 0. -/
theorem claim_findAll_pagination_witness :
    (DogService.findAll 2 1 []).dogs = [] ∧
    (DogService.findAll 2 1 []).pagination.totalPages = 0 :=
  (claim_findAll_pagination 2 1 [] (by norm_num) (by norm_num)).2.2.2.2.2 rfl

/-- C1 counterexample: with latitude, longitude and radiusKm all
present but radiusKm = 0, the radius guard (JavaScript truthiness of
radiusKm) is false, so search skips the distance filter and returns a
record whose distance from the centre strictly exceeds radiusKm. -/
theorem claim_search_radius_counterexample :
    dogAt 180 0 ∈ DogService.search
      ⟨none, none, none, none, some 0, some 0, some 0⟩ [dogAt 180 0] ∧
    ¬ (calculateDistance 0 0 (dogAt 180 0).latitude
        (dogAt 180 0).longitude ≤ 0) := by
  constructor
  · have hc : numTruthy (some (0 : ℝ)) = false := by
      simp [numTruthy]
    unfold DogService.search
    simp only [hc, Bool.and_false, if_false]
    unfold dbFindMany
    rw [sortByNewest_singleton]
    simp [searchWhere, List.filter]
  · show ¬ (calculateDistance 0 0 180 0 ≤ 0)
    rw [calculateDistance_antipodal]
    push_neg
    positivity

/-- C1 (amended): when latitude and longitude are present and radiusKm
is present and nonzero (truthy), every record returned by search has
Haversine distance from the centre at most radiusKm. -/
theorem claim_search_radius_bound (f : SearchFilters) (stored : List Dog)
    (lat lon r : ℝ) (hlat : f.latitude = some lat)
    (hlon : f.longitude = some lon) (hr : f.radiusKm = some r)
    (hr0 : r ≠ 0) (d : Dog) (hd : d ∈ DogService.search f stored) :
    calculateDistance lat lon d.latitude d.longitude ≤ r := by
  unfold DogService.search at hd
  rw [hlat, hlon, hr] at hd
  have hc : ((some lat).isSome && ((some lon).isSome &&
      numTruthy (some r))) = true := by
    simp [numTruthy, hr0]
  simp only [Option.isSome_some, Bool.and_self, numTruthy,
    decide_eq_true (show r ≠ 0 from hr0), Bool.and_true, if_true,
    Option.getD_some] at hd
  exact of_decide_eq_true (List.mem_filter.mp hd).2

/-- C3 counterexample: the breed filter IS applied as a separate
filter even when query is present.  A record whose description matches
the query but whose breed does not contain the breed string is dropped
when breed is present, and returned when breed is absent, so the two
searches differ. -/
theorem claim_search_breed_counterexample :
    DogService.search
      ⟨some "golden", none, none, some "poodle", none, none, none⟩
      [dogBreedy] = [] ∧
    DogService.search
      ⟨some "golden", none, none, none, none, none, none⟩
      [dogBreedy] = [dogBreedy] := by
  constructor
  · unfold DogService.search
    simp only [Option.isSome_none, Bool.false_and, if_false]
    unfold dbFindMany
    rw [sortByNewest_singleton]
    have hw : searchWhere
        ⟨some "golden", none, none, some "poodle", none, none, none⟩
        dogBreedy = false := by decide
    simp [List.filter_cons, hw]
  · unfold DogService.search
    simp only [Option.isSome_none, Bool.false_and, if_false]
    unfold dbFindMany
    rw [sortByNewest_singleton]
    have hw : searchWhere
        ⟨some "golden", none, none, none, none, none, none⟩
        dogBreedy = true := by decide
    simp [List.filter_cons, hw]

/-- C3 (amended): the case-insensitive breed substring filter is
applied whenever breed is present and nonempty, regardless of whether
query is present: every record returned by search then has a breed
that case-insensitively contains the given breed string.  In
particular this holds when query is absent. -/
theorem claim_search_breed_filter (f : SearchFilters)
    (stored : List Dog) (d : Dog) (b : String) (hb : f.breed = some b)
    (hb0 : b ≠ "") (hd : d ∈ DogService.search f stored) :
    optContainsInsensitive d.breed b = true := by
  have hw := mem_search_where f stored d hd
  rw [searchWhere, hb] at hw
  simp only [Bool.and_eq_true] at hw
  have h2 := hw.2
  rwa [if_neg hb0] at h2

/-- Witness for C3 (amended): searching breed "vi" over a store with
one matching record returns it, and its breed indeed contains "vi". -/
theorem claim_search_breed_filter_witness :
    optContainsInsensitive dogBreedy.breed "vi" = true := by
  refine claim_search_breed_filter
    ⟨none, none, none, some "vi", none, none, none⟩ [dogBreedy]
    dogBreedy "vi" rfl (by decide) ?_
  unfold DogService.search
  simp only [Option.isSome_none, Bool.false_and, if_false]
  unfold dbFindMany
  rw [sortByNewest_singleton]
  have hw : searchWhere ⟨none, none, none, some "vi", none, none, none⟩
      dogBreedy = true := by decide
  simp [List.filter_cons, hw]

/-- Witness for C1 (amended): a record at the centre itself is within
radius 1 of the centre. -/
theorem claim_search_radius_bound_witness :
    calculateDistance 0 0 (dogAt 0 0).latitude (dogAt 0 0).longitude ≤ 1 := by
  refine claim_search_radius_bound
    ⟨none, none, none, none, some 0, some 0, some 1⟩ [dogAt 0 0]
    0 0 1 rfl rfl rfl (by norm_num) (dogAt 0 0) ?_
  unfold DogService.search
  have hc : numTruthy (some (1 : ℝ)) = true := by
    simp [numTruthy]
  simp only [hc, Option.isSome_some, Bool.and_self, Bool.and_true, if_true]
  unfold dbFindMany
  rw [sortByNewest_singleton]
  refine List.mem_filter.mpr ⟨List.mem_filter.mpr ⟨List.mem_singleton.mpr rfl, rfl⟩, ?_⟩
  refine decide_eq_true ?_
  show calculateDistance 0 0 (dogAt 0 0).latitude (dogAt 0 0).longitude ≤ 1
  show calculateDistance 0 0 0 0 ≤ 1
  rw [calculateDistance_self]
  norm_num

/-- C4: for every create input with an image reference present and no
breed supplied, if the prediction collaborator throws or returns an
empty or absent breed, create returns the record exactly as originally
created, with the breed unchanged; the failure is not propagated
(create returns a record, not an error). -/
theorem claim_create_prediction_failure (predict : String → String → MLOutcome)
    (input : CreateDogInput) (freshId : String) (now : ℕ)
    (himg : strTruthy input.imageUrl = true)
    (hbreed : strTruthy input.breed = false)
    (hfail : ∀ p, predict (input.imageUrl.getD "")
        (DogService.mkDog input freshId now).id = Except.ok p →
      strTruthy p.breed = false) :
    DogService.create predict input freshId now =
      DogService.mkDog input freshId now := by
  unfold DogService.create
  have ha : DogService.mlAttempted input = true := by
    simp [DogService.mlAttempted, himg, hbreed]
  rw [if_pos ha]
  cases h : predict (input.imageUrl.getD "")
      (DogService.mkDog input freshId now).id with
  | error e => rfl
  | ok p => simp [hfail p h]

/-- Witness for C4: a throwing collaborator leaves the created record
untouched. -/
theorem claim_create_prediction_failure_witness :
    DogService.create predictThrows createInputNoBreed "id-1" 0 =
      DogService.mkDog createInputNoBreed "id-1" 0 :=
  claim_create_prediction_failure predictThrows createInputNoBreed
    "id-1" 0 rfl rfl (fun p h => by exact absurd h (by simp [predictThrows]))

/-- C7: for every create input in which a breed is already supplied
(truthy), create never invokes the prediction collaborator — the guard
is false and the result does not depend on the collaborator at all;
moreover the prediction guard is true exactly when an image reference
is present and no breed was supplied. -/
theorem claim_create_no_prediction_with_breed (input : CreateDogInput) :
    (strTruthy input.breed = true →
      DogService.mlAttempted input = false ∧
      ∀ freshId now p1 p2, DogService.create p1 input freshId now =
        DogService.create p2 input freshId now) ∧
    (DogService.mlAttempted input = true ↔
      (strTruthy input.imageUrl = true ∧ strTruthy input.breed = false)) := by
  constructor
  · intro h
    have ha : DogService.mlAttempted input = false := by
      simp [DogService.mlAttempted, h]
    refine ⟨ha, ?_⟩
    intro freshId now p1 p2
    unfold DogService.create
    rw [if_neg (by rw [ha]; exact Bool.false_ne_true),
      if_neg (by rw [ha]; exact Bool.false_ne_true)]
  · unfold DogService.mlAttempted
    simp [Bool.and_eq_true]

/-- Witness for C7: with a supplied breed the guard is false and a
throwing collaborator and a predicting collaborator give the same
result. -/
theorem claim_create_no_prediction_with_breed_witness :
    DogService.mlAttempted createInputWithBreed = false ∧
    DogService.create predictThrows createInputWithBreed "id-1" 0 =
      DogService.create predictLabrador createInputWithBreed "id-1" 0 := by
  have h := (claim_create_no_prediction_with_breed createInputWithBreed).1
    (by rfl)
  exact ⟨h.1, h.2 "id-1" 0 predictThrows predictLabrador⟩

/-- C5: whenever no stored record matches both id and requestingUserId,
update and delete fail with the not-found-or-not-permitted error, the
storage mutation is never reached, and the stored state is returned
unchanged. -/
theorem claim_update_delete_not_found (id userId : String)
    (input : UpdateDogInput) (state : List Dog)
    (h : ∀ d ∈ state, ¬(d.id = id ∧ d.userId = userId)) :
    DogService.update id userId input state =
      (Except.error DogError.notFoundOrForbidden, state) ∧
    DogService.delete id userId state =
      (Except.error DogError.notFoundOrForbidden, state) := by
  have hf : DogService.findFirstOwned id userId state = none := by
    rw [DogService.findFirstOwned, List.find?_eq_none]
    intro d hd
    simp only [Bool.and_eq_true, beq_iff_eq]
    exact h d hd
  constructor
  · unfold DogService.update
    rw [hf]
  · unfold DogService.delete
    rw [hf]

/-- Witness for C5: a requesting user who does not own the only stored
record gets the error from both update and delete, with the state
unchanged. -/
theorem claim_update_delete_not_found_witness :
    DogService.update "dog-1" "intruder" emptyPatch [dogAt 0 0] =
      (Except.error DogError.notFoundOrForbidden, [dogAt 0 0]) ∧
    DogService.delete "dog-1" "intruder" [dogAt 0 0] =
      (Except.error DogError.notFoundOrForbidden, [dogAt 0 0]) :=
  claim_update_delete_not_found "dog-1" "intruder" emptyPatch [dogAt 0 0]
    (by
      intro d hd
      rw [List.mem_singleton] at hd
      subst hd
      intro hc
      exact absurd hc.2 (by decide))

/-- C9: update never changes the owning-user id: the patch type
carries no userId, so applying a patch preserves userId on every
record; consequently a successful update leaves the userId column of
every stored record unchanged and returns a record whose userId equals
that of the original record with the target id. -/
theorem claim_update_preserves_owner (id userId : String)
    (input : UpdateDogInput) (state : List Dog) (r : Dog)
    (newState : List Dog)
    (h : DogService.update id userId input state =
      (Except.ok r, newState)) :
    (∀ e, (DogService.applyUpdate e input).userId = e.userId) ∧
    newState.map Dog.userId = state.map Dog.userId ∧
    ∃ d ∈ state, d.id = id ∧ r = DogService.applyUpdate d input ∧
      r.userId = d.userId := by
  have hpres : ∀ e, (DogService.applyUpdate e input).userId = e.userId :=
    fun e => rfl
  unfold DogService.update at h
  cases hfo : DogService.findFirstOwned id userId state with
  | none =>
    rw [hfo] at h
    exact absurd h (by simp)
  | some d0 =>
    rw [hfo] at h
    cases hfi : state.find? (fun d => d.id == id) with
    | none =>
      rw [hfi] at h
      exact absurd h (by simp)
    | some d =>
      rw [hfi] at h
      injection h with h1 h2
      injection h1 with h1
      refine ⟨hpres, ?_, d, List.mem_of_find?_eq_some hfi, ?_, ?_, ?_⟩
      · rw [← h2, List.map_map]
        refine List.map_congr_left ?_
        intro e he
        simp only [Function.comp_apply]
        by_cases hc : (e.id == id) = true
        · rw [if_pos hc]
          exact hpres e
        · rw [if_neg hc]
      · have hbeq := List.find?_some hfi
        simp only [beq_iff_eq] at hbeq
        exact hbeq
      · exact h1.symm
      · rw [← h1]
        exact hpres d

/-- Witness for C9: a successful concrete update keeps the userId
column intact and returns the patched record of the original owner. -/
theorem claim_update_preserves_owner_witness :
    ([DogService.applyUpdate (dogAt 0 0) emptyPatch].map Dog.userId =
      [dogAt 0 0].map Dog.userId) ∧
    ∃ d ∈ [dogAt 0 0], d.id = "dog-1" ∧
      DogService.applyUpdate (dogAt 0 0) emptyPatch =
        DogService.applyUpdate d emptyPatch ∧
      (DogService.applyUpdate (dogAt 0 0) emptyPatch).userId = d.userId := by
  have h := claim_update_preserves_owner "dog-1" "user-1" emptyPatch
    [dogAt 0 0] (DogService.applyUpdate (dogAt 0 0) emptyPatch)
    [DogService.applyUpdate (dogAt 0 0) emptyPatch] rfl
  exact ⟨h.2.1, h.2.2⟩

/-- C8: getForMap returns at most 100 records, ordered newest-first,
and when bounds are given every returned marker has latitude in
[south, north] and longitude in [west, east], both ends inclusive. -/
theorem claim_getForMap_spec (bounds : Option Bounds)
    (stored : List Dog) :
    (DogService.getForMap bounds stored).length ≤ 100 ∧
    List.Pairwise (fun a b => b.createdAt ≤ a.createdAt)
      (DogService.getForMap bounds stored) ∧
    ∀ b, bounds = some b → ∀ m ∈ DogService.getForMap bounds stored,
      b.south ≤ m.latitude ∧ m.latitude ≤ b.north ∧
      b.west ≤ m.longitude ∧ m.longitude ≤ b.east := by
  refine ⟨?_, ?_, ?_⟩
  · unfold DogService.getForMap
    rw [List.length_map]
    exact List.length_take_le _ _
  · unfold DogService.getForMap dbFindMany
    refine List.Pairwise.map _ (fun a b hab => hab) ?_
    exact List.Pairwise.sublist
      ((List.take_sublist _ _).trans (List.filter_sublist _))
      (sortByNewest_pairwise stored)
  · intro b hb m hm
    unfold DogService.getForMap dbFindMany at hm
    obtain ⟨d, hd, hdm⟩ := List.mem_map.mp hm
    have hfil := (List.mem_filter.mp (List.mem_of_mem_take hd)).2
    rw [hb] at hfil
    simp only [DogService.boundsWhere, Bool.and_eq_true,
      decide_eq_true_eq] at hfil
    subst hdm
    exact ⟨hfil.1.1.1, hfil.1.1.2, hfil.1.2, hfil.2⟩

/-- Witness for C8: a record at the origin is returned for the bounds
[-1, 1] × [-1, 1] and lies inside them. -/
theorem claim_getForMap_spec_witness :
    (-1 : ℝ) ≤ (toMarker (dogAt 0 0)).latitude ∧
    (toMarker (dogAt 0 0)).latitude ≤ 1 ∧
    (-1 : ℝ) ≤ (toMarker (dogAt 0 0)).longitude ∧
    (toMarker (dogAt 0 0)).longitude ≤ 1 := by
  refine (claim_getForMap_spec (some ⟨1, -1, 1, -1⟩) [dogAt 0 0]).2.2
    ⟨1, -1, 1, -1⟩ rfl (toMarker (dogAt 0 0)) ?_
  unfold DogService.getForMap dbFindMany
  rw [sortByNewest_singleton]
  have hb : DogService.boundsWhere (some ⟨1, -1, 1, -1⟩) (dogAt 0 0)
      = true := by
    simp only [DogService.boundsWhere, dogAt, Bool.and_eq_true,
      decide_eq_true_eq]
    norm_num
  simp [List.filter_cons, hb]

/-- C10: empty-string filter values are treated as not present: for
each of query, status, size and breed, searching with the empty string
returns exactly the same result as searching with the field absent. -/
theorem claim_search_empty_string (f : SearchFilters)
    (stored : List Dog) :
    DogService.search { f with query := some "" } stored =
      DogService.search { f with query := none } stored ∧
    DogService.search { f with status := some "" } stored =
      DogService.search { f with status := none } stored ∧
    DogService.search { f with size := some "" } stored =
      DogService.search { f with size := none } stored ∧
    DogService.search { f with breed := some "" } stored =
      DogService.search { f with breed := none } stored := by
  refine ⟨?_, ?_, ?_, ?_⟩
  · have hw : searchWhere { f with query := some "" } =
        searchWhere { f with query := none } := by
      funext d
      simp [searchWhere]
    unfold DogService.search dbFindMany
    rw [hw]
  · have hw : searchWhere { f with status := some "" } =
        searchWhere { f with status := none } := by
      funext d
      simp [searchWhere]
    unfold DogService.search dbFindMany
    rw [hw]
  · have hw : searchWhere { f with size := some "" } =
        searchWhere { f with size := none } := by
      funext d
      simp [searchWhere]
    unfold DogService.search dbFindMany
    rw [hw]
  · have hw : searchWhere { f with breed := some "" } =
        searchWhere { f with breed := none } := by
      funext d
      simp [searchWhere]
    unfold DogService.search dbFindMany
    rw [hw]

end DogSpotter
